import Mathlib

/-!
Shallow embedding of the `storage_client.rs` repository: the storage-error
taxonomy, the SQL type vocabulary and its `Display` rendering, `StorageSchema`,
the Postgres DDL generator, the JSON format bridge, and the filesystem backend
(`FileStorageClient`) over an explicit filesystem state.

Conventions of the embedding:
- `Bytes` models `Vec<u8>` as `List Nat`.
- The filesystem is an explicit state (`FS`): a set of directory paths and an
  association list from file paths to contents.  Genuine I/O failures
  (permissions, disk) are outside the pure model; the `NotFound` error kind,
  which the source branches on, is modelled.
- `anyhow::Result` becomes `Except StorageError`; stateful operations return
  `FS × Except StorageError α`.
- `OrderMap<String, T>` becomes an ordered association list `List (String × T)`
  (iteration order is insertion order, which is all the DDL generator uses).
-/

/-- Model of `Vec<u8>` file contents. -/
abbrev Bytes := List Nat

/-- The error kinds of `std::io::ErrorKind` that the source distinguishes:
`delete` and `delete_object_directory` branch on `ErrorKind::NotFound`. -/
inductive IOErrorKind where
  | notFound
  | other
  deriving Repr, DecidableEq

/-- The error taxonomy of the spec (section 7), as surfaced by the code:
io errors from the filesystem layer, serde failures, the construction-time
address check, and the DDL generator's schema-variant check. -/
inductive StorageError where
  | ioError (kind : IOErrorKind)
  | serializationFailure
  | configurationError
  | schemaMismatch
  deriving Repr, DecidableEq

/-- `RustStandardType` from `src/lib.rs`. -/
inductive RustStandardType where
  | string | int8 | int16 | int32 | int64 | int128
  | uint8 | uint16 | uint32 | uint64 | uint128
  | isize | usize | float32 | float64 | char | bool | dateTime
  deriving Repr, DecidableEq

/-- `PostgresType` from `src/postgres_storage_client.rs`.  `precision : Option<u8>`
and `scale : Option<i8>` become `Option Nat` and `Option Int`; `n : u32` becomes
`Nat`. -/
inductive PostgresType where
  | smallInt
  | integer
  | bigInt
  | decimal
  | numeric (precision : Option Nat) (scale : Option Int)
  | real
  | doublePrecision
  | smallSerial
  | serial
  | bigSerial
  | varchar (n : Nat)
  | char (n : Nat)
  | bpchar (n : Option Nat)
  | text
  | bytea
  | timestamp (withTimeZone : Bool)
  | date
  | time (withTimeZone : Bool)
  | boolean
  deriving Repr, DecidableEq

/-- `impl Display for PostgresType` from `src/postgres_storage_client.rs`
(lines 58-106).  Rust's `write!(f, "NUMERIC({}, {})", p, s)` prints a comma
followed by a space; `{}` on `u8`/`i8`/`u32` is decimal, matching `toString`
on `Nat`/`Int`. -/
def PostgresType.display : PostgresType → String
  | .smallInt => "SMALLINT"
  | .integer => "INTEGER"
  | .bigInt => "BIGINT"
  | .decimal => "DECIMAL"
  | .numeric (some p) (some s) => "NUMERIC(" ++ toString p ++ ", " ++ toString s ++ ")"
  | .numeric _ _ => "NUMERIC"
  | .real => "REAL"
  | .doublePrecision => "DOUBLE PRECISION"
  | .smallSerial => "SMALLSERIAL"
  | .serial => "SERIAL"
  | .bigSerial => "BIGSERIAL"
  | .varchar n => "VARCHAR(" ++ toString n ++ ")"
  | .char n => "CHAR(" ++ toString n ++ ")"
  | .bpchar (some n) => "BPCHAR(" ++ toString n ++ ")"
  | .bpchar none => "BPCHAR"
  | .text => "TEXT"
  | .bytea => "BYTEA"
  | .timestamp true => "TIMESTAMP WITH TIME ZONE"
  | .timestamp false => "TIMESTAMP WITHOUT TIME ZONE"
  | .date => "DATE"
  | .time true => "TIME WITH TIME ZONE"
  | .time false => "TIME WITHOUT TIME ZONE"
  | .boolean => "BOOLEAN"

/-- `StorageSchema` from `src/lib.rs` (lines 33-42). -/
inductive StorageSchema where
  | standard (schema : List (String × RustStandardType)) (primaryKey : String)
  | postgres (schema : List (String × PostgresType)) (primaryKey : String)

/-- Specification predicate: is the schema the `Postgres` variant?  (Used to
state when DDL generation succeeds.) -/
def StorageSchema.isPostgres : StorageSchema → Bool
  | .postgres _ _ => true
  | _ => false

/-- `PostgresStorageClient::create_table_if_not_exists_query` from
`src/postgres_storage_client.rs` (lines 120-138): the column list is rendered
in mapping order as `<name> <TYPE>`, joined by `", "`, and the `primary_key`
string is spliced into the `PRIMARY KEY` clause verbatim (no membership
check against the mapping). -/
def createTableIfNotExistsQuery (typeName : String) (schema : StorageSchema) :
    Except StorageError String :=
  match schema with
  | .postgres schema primaryKey =>
      let columns : List String := schema.map (fun e => e.1 ++ " " ++ e.2.display)
      let columnsStr := String.intercalate ", " columns
      .ok ("CREATE TABLE IF NOT EXISTS " ++ typeName ++ " (" ++ columnsStr ++
           ", PRIMARY KEY (" ++ primaryKey ++ "))")
  | _ => .error .schemaMismatch

/-! ## Filesystem state and the tokio::fs operations the backend uses -/

/-- Filesystem state: the set of directory paths that exist, and the files as
an association list from full path to contents. -/
structure FS where
  dirs : List String
  files : List (String × Bytes)
  deriving Repr, DecidableEq

/-- `tokio::fs::read`: the contents at a path, if the file exists. -/
def FS.readFile (fs : FS) (p : String) : Option Bytes :=
  (fs.files.find? (fun e => e.1 == p)).map (fun e => e.2)

/-- `tokio::fs::File::create` followed by a complete `write_all`: creates the
file, or truncates and overwrites it if it exists. -/
def FS.writeFile (fs : FS) (p : String) (data : Bytes) : FS :=
  { fs with files := (p, data) :: fs.files.filter (fun e => e.1 != p) }

/-- `tokio::fs::create_dir_all`: succeeds whether or not the directory already
exists (never an "already exists" error). -/
def FS.createDirAll (fs : FS) (p : String) : FS :=
  { fs with dirs := if p ∈ fs.dirs then fs.dirs else p :: fs.dirs }

/-- `tokio::fs::remove_file`: removes the file, or fails with `NotFound`. -/
def FS.removeFile (fs : FS) (p : String) : FS × Except IOErrorKind Unit :=
  if fs.files.any (fun e => e.1 == p) then
    ({ fs with files := fs.files.filter (fun e => e.1 != p) }, .ok ())
  else (fs, .error .notFound)

/-- `p` lies strictly inside directory `dir`: `dir ++ "/"` is a prefix of `p`. -/
def FS.isUnder (dir p : String) : Bool :=
  List.isPrefixOf (dir.data ++ ['/']) p.data

/-- `tokio::fs::remove_dir_all`: removes the directory and everything under it,
or fails with `NotFound` when the directory does not exist. -/
def FS.removeDirAll (fs : FS) (p : String) : FS × Except IOErrorKind Unit :=
  if p ∈ fs.dirs then
    ({ dirs := fs.dirs.filter (fun d => !(d == p || FS.isUnder p d)),
       files := fs.files.filter (fun e => !(FS.isUnder p e.1)) }, .ok ())
  else (fs, .error .notFound)

/-! ## The filesystem backend (`src/file_stroage_client.rs`) -/

/-- `FileStorageClient` from `src/file_stroage_client.rs`.  The source holds a
`Url` and only ever uses its `.path()`; the model keeps that path component.
The configured `StorageFormat` is compile-time generic in the source, so the
operations below take the format's `serialize`/`deserialize` functions as
arguments; serde failure is modelled as `none`. -/
structure FileStorageClient where
  directory : String
  deriving Repr, DecidableEq

/-- `FileStorageClient::new` (lines 17-31): rejects an empty URL path before
touching the filesystem, otherwise eagerly `create_dir_all`s the root. -/
def FileStorageClient.new (path : String) (fs : FS) :
    FS × Except StorageError FileStorageClient :=
  if path.isEmpty then (fs, .error .configurationError)
  else (fs.createDirAll path, .ok { directory := path })

/-- `StorageClient::object_path` default method (`src/lib.rs` lines 70-75):
`directory() / type_name / key`, concatenated with `/`, no validation. -/
def FileStorageClient.objectPath (c : FileStorageClient) (typeName key : String) :
    String :=
  let fullPath := c.directory ++ "/" ++ typeName
  fullPath ++ "/" ++ key

/-- `FileStorageClient::create_object_directory` (lines 61-69):
`create_dir_all` on `directory()/type_name`. -/
def FileStorageClient.createObjectDirectory (c : FileStorageClient)
    (typeName : String) (fs : FS) : FS × Except StorageError Unit :=
  let fullPath := c.directory ++ "/" ++ typeName
  (fs.createDirAll fullPath, .ok ())

/-- `FileStorageClient::get` (lines 73-86): reads the file at `object_path`;
on read success a serde failure is surfaced as a serialization failure; ANY
read error — including `NotFound` — is returned as an error (`Err(e.into())`),
never as `Ok(None)`. -/
def FileStorageClient.get {α : Type} (c : FileStorageClient)
    (deserialize : Bytes → Option α) (typeName key : String) (fs : FS) :
    Except StorageError (Option α) :=
  let filePath := c.objectPath typeName key
  match fs.readFile filePath with
  | some data =>
      match deserialize data with
      | some obj => .ok (some obj)
      | none => .error .serializationFailure
  | none => .error (.ioError .notFound)

/-- `FileStorageClient::put` (lines 88-104): `File::create` FIRST creates (and
truncates) the target file, THEN the value is serialized; a serde failure is
reported after the truncation has already happened.  On success the serialized
bytes are written. -/
def FileStorageClient.put {α : Type} (c : FileStorageClient)
    (serialize : α → Option Bytes) (typeName key : String) (value : α)
    (fs : FS) : FS × Except StorageError Unit :=
  let filePath := c.objectPath typeName key
  let fs1 := fs.writeFile filePath []
  match serialize value with
  | none => (fs1, .error .serializationFailure)
  | some data => (fs1.writeFile filePath data, .ok ())

/-- `FileStorageClient::delete` (lines 106-117): `remove_file`, mapping success
to `true` and the `NotFound` error kind to `Ok(false)`; other io errors
propagate. -/
def FileStorageClient.delete (c : FileStorageClient) (typeName key : String)
    (fs : FS) : FS × Except StorageError Bool :=
  let filePath := c.objectPath typeName key
  match fs.removeFile filePath with
  | (fs1, .ok _) => (fs1, .ok true)
  | (fs1, .error .notFound) => (fs1, .ok false)
  | (fs1, .error k) => (fs1, .error (.ioError k))

/-- `FileStorageClient::delete_object_directory` (lines 119-130):
`remove_dir_all` on `directory()/type_name`, with the same
`NotFound ↦ Ok(false)` mapping as `delete`. -/
def FileStorageClient.deleteObjectDirectory (c : FileStorageClient)
    (typeName : String) (fs : FS) : FS × Except StorageError Bool :=
  let fullPath := c.directory ++ "/" ++ typeName
  match fs.removeDirAll fullPath with
  | (fs1, .ok _) => (fs1, .ok true)
  | (fs1, .error .notFound) => (fs1, .ok false)
  | (fs1, .error k) => (fs1, .error (.ioError k))

/-! ## The JSON format bridge (`src/json.rs`)

`JsonStorageFormat` delegates byte-level encoding wholesale to the external
`serde_json` library, which the spec places out of scope ("the byte-level JSON
codec (delegated to an external serialization library)").  Modelled from the
spec: the codec is modelled at the JSON-document level — a document AST plus
the derived encoders/decoders serde generates for the repository's registered
object types (`TestObject {key: String, value: String}` from the filesystem
tests and `TestObject {key: i32, value: String}` from the Postgres tests). -/

/-- A JSON document. -/
inductive Json where
  | str (s : String)
  | num (n : Int)
  | obj (fields : List (String × Json))

/-- The filesystem tests' `TestObject { key: String, value: String }`. -/
structure TestObject where
  key : String
  value : String
  deriving Repr, DecidableEq

/-- Modelled from the spec: serde's derived `Serialize` for `TestObject`
renders the struct as a JSON object with its fields in declaration order. -/
def TestObject.toJson (o : TestObject) : Json :=
  .obj [("key", .str o.key), ("value", .str o.value)]

/-- Modelled from the spec: serde's derived `Deserialize` for `TestObject`
reads the two string fields back from the JSON object. -/
def TestObject.fromJson : Json → Option TestObject
  | .obj [("key", .str k), ("value", .str v)] => some ⟨k, v⟩
  | _ => none

/-- The Postgres tests' `TestObject { key: i32, value: String }`. -/
structure TestObjectPg where
  key : Int
  value : String
  deriving Repr, DecidableEq

/-- Modelled from the spec: serde's derived `Serialize` for the Postgres
tests' object type. -/
def TestObjectPg.toJson (o : TestObjectPg) : Json :=
  .obj [("key", .num o.key), ("value", .str o.value)]

/-- Modelled from the spec: serde's derived `Deserialize` for the Postgres
tests' object type. -/
def TestObjectPg.fromJson : Json → Option TestObjectPg
  | .obj [("key", .num k), ("value", .str v)] => some ⟨k, v⟩
  | _ => none

/-! ## Helper lemmas about the filesystem model -/

/-- Reading back a just-written file yields the written bytes. -/
theorem FS.readFile_writeFile_self (fs : FS) (p : String) (d : Bytes) :
    (fs.writeFile p d).readFile p = some d := by
  simp [FS.readFile, FS.writeFile]

/-- A file is absent exactly when no entry's path matches. -/
theorem FS.readFile_eq_none_iff (fs : FS) (p : String) :
    fs.readFile p = none ↔ fs.files.any (fun e => e.1 == p) = false := by
  simp [FS.readFile, List.find?_eq_none, List.any_eq_false]

/-- After filtering out the entries at `p`, a lookup at `p` finds nothing. -/
theorem FS.find?_filter_ne_self (l : List (String × Bytes)) (p : String) :
    (l.filter (fun e => e.1 != p)).find? (fun e => e.1 == p) = none := by
  rw [List.find?_eq_none]
  intro x hx
  rw [List.mem_filter] at hx
  simpa using hx.2

/-! ## Claim theorems -/

/-- C2: for the `TestObject` schema of the repository's Postgres test —
`key ↦ INTEGER`, `value ↦ VARCHAR(255)` in insertion order, primary key
`key` — the generated DDL is exactly the expected string. -/
theorem ddl_testobject_exact :
    createTableIfNotExistsQuery "TestObject"
        (.postgres [("key", .integer), ("value", .varchar 255)] "key") =
      .ok "CREATE TABLE IF NOT EXISTS TestObject (key INTEGER, value VARCHAR(255), PRIMARY KEY (key))" := by
  rfl

/-- C3 counterexample: a `Numeric` value with both precision and scale present
renders as `NUMERIC(10, 2)` — with a space after the comma — not as the
claimed exact string `NUMERIC(10,2)`. -/
theorem numeric_rendering_cex :
    PostgresType.display (.numeric (some 10) (some 2)) = "NUMERIC(10, 2)" ∧
    PostgresType.display (.numeric (some 10) (some 2)) ≠ "NUMERIC(10,2)" := by
  refine ⟨rfl, ?_⟩
  decide

/-- Modelled from the spec's rendering table (section 4.4), row by row, amended
in the single place the counterexample forces: `Numeric` with both fields
present renders with `", "` (comma, space) between precision and scale. -/
def specRenderedSql : PostgresType → String
  | .smallInt => "SMALLINT"
  | .integer => "INTEGER"
  | .bigInt => "BIGINT"
  | .decimal => "DECIMAL"
  | .numeric (some p) (some s) => "NUMERIC(" ++ toString p ++ ", " ++ toString s ++ ")"
  | .numeric _ _ => "NUMERIC"
  | .real => "REAL"
  | .doublePrecision => "DOUBLE PRECISION"
  | .smallSerial => "SMALLSERIAL"
  | .serial => "SERIAL"
  | .bigSerial => "BIGSERIAL"
  | .varchar n => "VARCHAR(" ++ toString n ++ ")"
  | .char n => "CHAR(" ++ toString n ++ ")"
  | .bpchar (some n) => "BPCHAR(" ++ toString n ++ ")"
  | .bpchar none => "BPCHAR"
  | .text => "TEXT"
  | .bytea => "BYTEA"
  | .timestamp true => "TIMESTAMP WITH TIME ZONE"
  | .timestamp false => "TIMESTAMP WITHOUT TIME ZONE"
  | .date => "DATE"
  | .time true => "TIME WITH TIME ZONE"
  | .time false => "TIME WITHOUT TIME ZONE"
  | .boolean => "BOOLEAN"

/-- C3 amended: for every value of the SQL type vocabulary, the code's
`Display` rendering equals the spec's rendering table with the one correction:
`Numeric` with both precision and scale renders as `NUMERIC(p, s)` (a space
after the comma), not `NUMERIC(p,s)`. -/
theorem display_matches_spec_table (t : PostgresType) :
    t.display = specRenderedSql t := by
  cases t
  case numeric p s => cases p <;> cases s <;> rfl
  case bpchar n => cases n <;> rfl
  case timestamp b => cases b <;> rfl
  case time b => cases b <;> rfl
  all_goals rfl

/-- C1 at its failing input: `get` on a store that has no entry for the key
returns the io `NotFound` error — it does not return `Ok(None)` as the spec
and the trait's own doc comment (`src/lib.rs` line 83) promise. -/
theorem get_absent_key_is_error :
    FileStorageClient.get (α := Nat) ⟨"root"⟩ (fun _ => some 0) "T" "missing"
        ⟨["root", "root/T"], []⟩ = .error (.ioError .notFound) ∧
    FileStorageClient.get (α := Nat) ⟨"root"⟩ (fun _ => some 0) "T" "missing"
        ⟨["root", "root/T"], []⟩ ≠ .ok none := by
  refine ⟨rfl, fun h => ?_⟩
  rw [show FileStorageClient.get (α := Nat) ⟨"root"⟩ (fun _ => some 0) "T" "missing"
        ⟨["root", "root/T"], []⟩ = .error (.ioError .notFound) from rfl] at h
  exact Except.noConfusion h

/-- C9: for the repository's registered object types, decoding the document
produced by encoding a value yields the value back, field for field. -/
theorem json_roundtrip :
    (∀ o : TestObject, TestObject.fromJson o.toJson = some o) ∧
    (∀ o : TestObjectPg, TestObjectPg.fromJson o.toJson = some o) := by
  exact ⟨fun o => by cases o; rfl, fun o => by cases o; rfl⟩

/-- C5 counterexample: with an entry `[1, 2]` stored under the key, a `put`
whose serialization fails returns an error, yet the stored state has changed —
the previously stored entry has been truncated to an empty file, because
`File::create` runs before the value is serialized. -/
theorem put_serialize_failure_cex :
    ((⟨"root"⟩ : FileStorageClient).put (α := Nat) (fun _ => none) "T" "k" 7
        ⟨["root", "root/T"], [("root/T/k", [1, 2])]⟩).2 =
      .error .serializationFailure ∧
    (⟨["root", "root/T"], [("root/T/k", [1, 2])]⟩ : FS).readFile
        ((⟨"root"⟩ : FileStorageClient).objectPath "T" "k") = some [1, 2] ∧
    (((⟨"root"⟩ : FileStorageClient).put (α := Nat) (fun _ => none) "T" "k" 7
        ⟨["root", "root/T"], [("root/T/k", [1, 2])]⟩).1).readFile
        ((⟨"root"⟩ : FileStorageClient).objectPath "T" "k") = some [] := by
  exact ⟨rfl, rfl, rfl⟩

/-- C5 amended: `put` is not all-or-nothing.  When the configured format
cannot serialize the value, `put` reports a SerializationFailure, but the
target file has already been created and truncated: the state is the original
one with an empty entry written at the key's address, so a previously stored
entry (or its absence) is replaced by an empty entry rather than preserved. -/
theorem put_serialize_failure_truncates {α : Type} (c : FileStorageClient)
    (serialize : α → Option Bytes) (ty k : String) (v : α) (fs : FS)
    (h : serialize v = none) :
    (c.put serialize ty k v fs).2 = .error .serializationFailure ∧
    (c.put serialize ty k v fs).1 = fs.writeFile (c.objectPath ty k) [] ∧
    ((c.put serialize ty k v fs).1).readFile (c.objectPath ty k) = some [] := by
  have h2 : c.put serialize ty k v fs =
      (fs.writeFile (c.objectPath ty k) [], .error .serializationFailure) := by
    simp only [FileStorageClient.put, h]
  rw [h2]
  exact ⟨rfl, rfl, FS.readFile_writeFile_self ..⟩

theorem put_serialize_failure_truncates_witness :
    ((⟨"root"⟩ : FileStorageClient).put (α := Nat) (fun _ => none) "T" "k" 7
        ⟨["root", "root/T"], [("root/T/k", [1, 2])]⟩).2 =
      .error .serializationFailure ∧
    ((⟨"root"⟩ : FileStorageClient).put (α := Nat) (fun _ => none) "T" "k" 7
        ⟨["root", "root/T"], [("root/T/k", [1, 2])]⟩).1 =
      (⟨["root", "root/T"], [("root/T/k", [1, 2])]⟩ : FS).writeFile
        ((⟨"root"⟩ : FileStorageClient).objectPath "T" "k") [] ∧
    (((⟨"root"⟩ : FileStorageClient).put (α := Nat) (fun _ => none) "T" "k" 7
        ⟨["root", "root/T"], [("root/T/k", [1, 2])]⟩).1).readFile
        ((⟨"root"⟩ : FileStorageClient).objectPath "T" "k") = some [] :=
  put_serialize_failure_truncates ⟨"root"⟩ (fun _ => none) "T" "k" 7
    ⟨["root", "root/T"], [("root/T/k", [1, 2])]⟩ rfl

/-- C7: `create_object_directory` is idempotent — when the type partition
already exists, the call succeeds and the filesystem state is unchanged
(`create_dir_all` never reports "already exists"). -/
theorem create_object_directory_idempotent (c : FileStorageClient)
    (ty : String) (fs : FS) (h : (c.directory ++ "/" ++ ty) ∈ fs.dirs) :
    c.createObjectDirectory ty fs = (fs, .ok ()) := by
  simp [FileStorageClient.createObjectDirectory, FS.createDirAll, h]

theorem create_object_directory_idempotent_witness :
    (⟨"root"⟩ : FileStorageClient).createObjectDirectory "T"
        ⟨["root", "root/T"], []⟩ = (⟨["root", "root/T"], []⟩, .ok ()) :=
  create_object_directory_idempotent ⟨"root"⟩ "T" ⟨["root", "root/T"], []⟩
    (by decide)

/-- C8: constructing the filesystem backend with an empty path fails with a
configuration error and the filesystem state is untouched; with a non-empty
path, construction succeeds and has eagerly created the root directory. -/
theorem new_construction_validation (path : String) (fs : FS) :
    (path = "" → FileStorageClient.new path fs = (fs, .error .configurationError)) ∧
    (path ≠ "" →
      FileStorageClient.new path fs = (fs.createDirAll path, .ok ⟨path⟩) ∧
      path ∈ (FileStorageClient.new path fs).1.dirs) := by
  constructor
  · intro h
    subst h
    rfl
  · intro h
    have hne : path.isEmpty = false := by
      rw [Bool.eq_false_iff]
      intro hc
      exact h ((String.isEmpty_iff _).mp hc)
    have heq : FileStorageClient.new path fs = (fs.createDirAll path, .ok ⟨path⟩) := by
      simp [FileStorageClient.new, hne]
    refine ⟨heq, ?_⟩
    rw [heq]
    by_cases hd : path ∈ fs.dirs <;> simp [FS.createDirAll, hd]

theorem new_construction_validation_witness :
    FileStorageClient.new "" ⟨[], []⟩ = (⟨[], []⟩, .error .configurationError) ∧
    FileStorageClient.new "/tmp/store" ⟨[], []⟩ =
      ((⟨[], []⟩ : FS).createDirAll "/tmp/store", .ok ⟨"/tmp/store"⟩) ∧
    "/tmp/store" ∈ (FileStorageClient.new "/tmp/store" ⟨[], []⟩).1.dirs :=
  ⟨(new_construction_validation "" ⟨[], []⟩).1 rfl,
   (new_construction_validation "/tmp/store" ⟨[], []⟩).2 (by decide)⟩

/-- C4: `delete` returns `true` when an entry exists for the key — and
afterwards no entry is stored at that address, so a subsequent `get` cannot
find one (it reports the io `NotFound` condition, never a value) — and
returns `false` without error when the key is absent, leaving the state
untouched. -/
theorem delete_idempotent_spec (c : FileStorageClient) (ty k : String) (fs : FS) :
    (∀ data, fs.readFile (c.objectPath ty k) = some data →
      (c.delete ty k fs).2 = .ok true ∧
      ((c.delete ty k fs).1).readFile (c.objectPath ty k) = none ∧
      ∀ (α : Type) (deserialize : Bytes → Option α),
        c.get deserialize ty k (c.delete ty k fs).1 = .error (.ioError .notFound)) ∧
    (fs.readFile (c.objectPath ty k) = none →
      c.delete ty k fs = (fs, .ok false)) := by
  constructor
  · intro data hdata
    have hany : fs.files.any (fun e => e.1 == c.objectPath ty k) = true := by
      rcases hb : fs.files.any (fun e => e.1 == c.objectPath ty k) with _ | _
      · rw [(FS.readFile_eq_none_iff fs (c.objectPath ty k)).mpr hb] at hdata
        exact Option.noConfusion hdata
      · rfl
    have hdeq : c.delete ty k fs =
        ({ fs with files := fs.files.filter (fun e => e.1 != c.objectPath ty k) },
          .ok true) := by
      simp only [FileStorageClient.delete, FS.removeFile, hany, if_true]
    rw [hdeq]
    have hnone : FS.readFile
        { fs with files := fs.files.filter (fun e => e.1 != c.objectPath ty k) }
        (c.objectPath ty k) = none := by
      simp only [FS.readFile, FS.find?_filter_ne_self, Option.map_none']
    refine ⟨rfl, hnone, fun α deserialize => ?_⟩
    simp only [FileStorageClient.get, hnone]
  · intro hnone
    have hany : fs.files.any (fun e => e.1 == c.objectPath ty k) = false :=
      (FS.readFile_eq_none_iff fs (c.objectPath ty k)).mp hnone
    simp only [FileStorageClient.delete, FS.removeFile, hany, if_false,
      Bool.false_eq_true]

theorem delete_idempotent_spec_witness :
    ((⟨"root"⟩ : FileStorageClient).delete "T" "k"
        ⟨["root", "root/T"], [("root/T/k", [1, 2])]⟩).2 = .ok true ∧
    (((⟨"root"⟩ : FileStorageClient).delete "T" "k"
        ⟨["root", "root/T"], [("root/T/k", [1, 2])]⟩).1).readFile
        ((⟨"root"⟩ : FileStorageClient).objectPath "T" "k") = none ∧
    (⟨"root"⟩ : FileStorageClient).delete "T" "k" ⟨["root", "root/T"], []⟩ =
      (⟨["root", "root/T"], []⟩, .ok false) := by
  have h1 := (delete_idempotent_spec ⟨"root"⟩ "T" "k"
    ⟨["root", "root/T"], [("root/T/k", [1, 2])]⟩).1 [1, 2] rfl
  have h2 := (delete_idempotent_spec ⟨"root"⟩ "T" "k" ⟨["root", "root/T"], []⟩).2 rfl
  exact ⟨h1.1, h1.2.1, h2⟩

/-- C10 counterexample: a `Postgres`-variant schema whose `primary_key` `"b"`
is NOT a key of the mapping `{a ↦ INTEGER}` is accepted — DDL generation
succeeds and splices `"b"` into the PRIMARY KEY clause even though it is not
among the rendered column names; nothing enforces the membership invariant. -/
theorem primary_key_unchecked_cex :
    createTableIfNotExistsQuery "Bad" (.postgres [("a", .integer)] "b") =
      .ok "CREATE TABLE IF NOT EXISTS Bad (a INTEGER, PRIMARY KEY (b))" ∧
    "b" ∉ ([("a", PostgresType.integer)].map Prod.fst) := by
  exact ⟨rfl, by decide⟩

/-- C10 amended: DDL generation fails with a SchemaMismatch exactly when the
schema is not the `Postgres` variant; for a `Postgres` schema it always
succeeds with the canonical statement, splicing `primary_key` in verbatim —
the membership invariant is not checked, but whenever it holds, the PRIMARY
KEY clause's column is one of the mapping's (rendered) column names. -/
theorem createTable_schema_spec (tn : String) (s : StorageSchema) :
    (createTableIfNotExistsQuery tn s = .error .schemaMismatch ↔
      s.isPostgres = false) ∧
    (∀ cols pk, s = .postgres cols pk →
      createTableIfNotExistsQuery tn s =
        .ok ("CREATE TABLE IF NOT EXISTS " ++ tn ++ " (" ++
          String.intercalate ", " (cols.map (fun e => e.1 ++ " " ++ e.2.display)) ++
          ", PRIMARY KEY (" ++ pk ++ "))") ∧
      (pk ∈ cols.map Prod.fst → ∃ t, (pk, t) ∈ cols)) := by
  constructor
  · cases s with
    | standard sc p => simp [createTableIfNotExistsQuery, StorageSchema.isPostgres]
    | postgres sc p => simp [createTableIfNotExistsQuery, StorageSchema.isPostgres]
  · intro cols pk hs
    subst hs
    refine ⟨rfl, fun hm => ?_⟩
    rcases List.mem_map.mp hm with ⟨e, he, hfst⟩
    refine ⟨e.2, ?_⟩
    rw [← hfst]
    simpa using he

theorem createTable_schema_spec_witness :
    (createTableIfNotExistsQuery "TestObject"
        (.postgres [("key", PostgresType.integer)] "key") =
      .ok ("CREATE TABLE IF NOT EXISTS " ++ "TestObject" ++ " (" ++
        String.intercalate ", "
          ([("key", PostgresType.integer)].map (fun e => e.1 ++ " " ++ e.2.display)) ++
        ", PRIMARY KEY (" ++ "key" ++ "))")) ∧
    (∃ t, ("key", t) ∈ [("key", PostgresType.integer)]) ∧
    createTableIfNotExistsQuery "TestObject" (.standard [] "key") =
      .error .schemaMismatch := by
  have h := (createTable_schema_spec "TestObject"
    (.postgres [("key", PostgresType.integer)] "key")).2
    [("key", PostgresType.integer)] "key" rfl
  have h2 := (createTable_schema_spec "TestObject" (.standard [] "key")).1
  exact ⟨h.1, h.2 (by decide), h2.mpr rfl⟩

/-! ## Path addressing lemmas (for partition isolation) -/

theorem slash_data : ("/" : String).data = ['/'] := rfl

/-- The character list of a full object address. -/
theorem objectPath_data (c : FileStorageClient) (t k : String) :
    (c.objectPath t k).data =
      c.directory.data ++ '/' :: (t.data ++ '/' :: k.data) := by
  simp [FileStorageClient.objectPath, String.data_append, slash_data]

/-- Two addresses with the same base directory and key but different type
names are different strings. -/
theorem objectPath_inj_typeName (c : FileStorageClient) (t1 t2 k : String)
    (h : c.objectPath t1 k = c.objectPath t2 k) : t1 = t2 := by
  have hd := congrArg String.data h
  rw [objectPath_data, objectPath_data] at hd
  have h1 := List.append_cancel_left hd
  have h2 := (List.cons.inj h1).2
  exact String.ext (List.append_cancel_right h2)

/-- If neither word contains `'/'`, a word followed by `'/'` can only be a
prefix of another word followed by `'/'` when the words are equal. -/
theorem slashFree_prefix_eq : ∀ (xs : List Char), '/' ∉ xs →
    ∀ (ys zs : List Char), '/' ∉ ys →
    (xs ++ ['/']) <+: (ys ++ '/' :: zs) → xs = ys := by
  intro xs
  induction xs with
  | nil =>
    intro _ ys zs hy hp
    cases ys with
    | nil => rfl
    | cons c ys2 =>
      exfalso
      rw [List.nil_append, List.cons_append] at hp
      have h1 := (List.cons_prefix_cons.mp hp).1
      cases h1
      exact hy (List.mem_cons_self _ _)
  | cons a xs2 ih =>
    intro hx ys zs hy hp
    cases ys with
    | nil =>
      exfalso
      rw [List.cons_append, List.nil_append] at hp
      have h1 := (List.cons_prefix_cons.mp hp).1
      cases h1
      exact hx (List.mem_cons_self _ _)
    | cons c ys2 =>
      rw [List.cons_append, List.cons_append] at hp
      have h1 := List.cons_prefix_cons.mp hp
      have hx2 : '/' ∉ xs2 := fun hm => hx (List.mem_cons_of_mem _ hm)
      have hy2 : '/' ∉ ys2 := fun hm => hy (List.mem_cons_of_mem _ hm)
      rw [h1.1, ih hx2 ys2 zs hy2 h1.2]

/-- With slash-free, distinct type names, one type's partition directory never
contains another type's entries. -/
theorem not_isUnder_objectPath (d t1 t2 k2 : String) (h1 : t1 ≠ t2)
    (h2 : '/' ∉ t1.data) (h3 : '/' ∉ t2.data) :
    FS.isUnder (d ++ "/" ++ t1) ((FileStorageClient.mk d).objectPath t2 k2) =
      false := by
  rw [FS.isUnder, Bool.eq_false_iff]
  intro hc
  rw [List.isPrefixOf_iff_prefix, objectPath_data] at hc
  have hdd : (d ++ "/" ++ t1).data ++ ['/'] =
      d.data ++ '/' :: (t1.data ++ ['/']) := by
    simp [String.data_append, slash_data]
  rw [hdd, List.prefix_append_right_inj, List.cons_prefix_cons] at hc
  exact h1 (String.ext (slashFree_prefix_eq t1.data h2 t2.data k2.data h3 hc.2))

/-- A lookup at a path that does not lie under the removed directory is
unaffected by filtering out that directory's entries. -/
theorem find?_filter_not_under (l : List (String × Bytes)) (dir p : String)
    (h : FS.isUnder dir p = false) :
    (l.filter (fun e => !(FS.isUnder dir e.1))).find? (fun e => e.1 == p) =
      l.find? (fun e => e.1 == p) := by
  induction l with
  | nil => rfl
  | cons a l ih =>
    by_cases hp : a.1 = p
    · have hu : FS.isUnder dir a.1 = false := by rw [hp]; exact h
      simp [List.filter_cons, List.find?_cons, hu, hp, h]
    · by_cases hu : FS.isUnder dir a.1
      · simp [List.filter_cons, List.find?_cons, hu, hp, ih]
      · simp [List.filter_cons, List.find?_cons, hu, hp, ih]

/-- `remove_dir_all` leaves every file outside the removed directory intact. -/
theorem readFile_removeDirAll_of_not_under (fs : FS) (dir p : String)
    (h : FS.isUnder dir p = false) :
    ((fs.removeDirAll dir).1).readFile p = fs.readFile p := by
  unfold FS.removeDirAll
  by_cases hd : dir ∈ fs.dirs
  · rw [if_pos hd]
    show (List.find? _ (fs.files.filter _)).map _ = (List.find? _ fs.files).map _
    rw [find?_filter_not_under _ _ _ h]
  · rw [if_neg hd]

/-- Whatever `remove_dir_all` reports, `delete_object_directory` passes its
resulting filesystem state straight through. -/
theorem deleteObjectDirectory_state (c : FileStorageClient) (ty : String)
    (fs : FS) :
    (c.deleteObjectDirectory ty fs).1 =
      (fs.removeDirAll (c.directory ++ "/" ++ ty)).1 := by
  simp only [FileStorageClient.deleteObjectDirectory]
  rcases h : fs.removeDirAll (c.directory ++ "/" ++ ty) with ⟨fs1, r⟩
  cases r with
  | ok u => rfl
  | error k => cases k <;> rfl

/-- C6 counterexample: with type names `"A"` and `"A/B"` (distinct, but the
second contains a path separator) over base `"root"`, the two addresses for
key `"k"` are distinct — yet deleting type `"A"`'s partition also removes the
entry stored under type `"A/B"`, because `root/A/B/k` lies inside `root/A`. -/
theorem partition_isolation_cex :
    (FileStorageClient.mk "root").objectPath "A" "k" ≠
      (FileStorageClient.mk "root").objectPath "A/B" "k" ∧
    FS.readFile ⟨["root", "root/A", "root/A/B"], [("root/A/B/k", [7])]⟩
        ((FileStorageClient.mk "root").objectPath "A/B" "k") = some [7] ∧
    (((FileStorageClient.mk "root").deleteObjectDirectory "A"
        ⟨["root", "root/A", "root/A/B"], [("root/A/B/k", [7])]⟩).1).readFile
        ((FileStorageClient.mk "root").objectPath "A/B" "k") = none := by
  refine ⟨?_, rfl, rfl⟩
  decide

/-- C6 amended: for distinct type names that contain no `'/'` (the separator
the addressing scheme itself inserts, which the code never validates against),
the address built for (O1, key) differs from the address built for (O2, key),
and deleting O1's partition leaves every entry stored under O2 intact. -/
theorem partition_isolation (d t1 t2 k k2 : String) (fs : FS)
    (h1 : t1 ≠ t2) (h2 : '/' ∉ t1.data) (h3 : '/' ∉ t2.data) :
    (FileStorageClient.mk d).objectPath t1 k ≠
      (FileStorageClient.mk d).objectPath t2 k ∧
    (((FileStorageClient.mk d).deleteObjectDirectory t1 fs).1).readFile
        ((FileStorageClient.mk d).objectPath t2 k2) =
      fs.readFile ((FileStorageClient.mk d).objectPath t2 k2) := by
  constructor
  · intro h
    exact h1 (objectPath_inj_typeName _ _ _ _ h)
  · rw [deleteObjectDirectory_state]
    exact readFile_removeDirAll_of_not_under fs _ _
      (not_isUnder_objectPath d t1 t2 k2 h1 h2 h3)

theorem partition_isolation_witness :
    (FileStorageClient.mk "root").objectPath "A" "k" ≠
      (FileStorageClient.mk "root").objectPath "B" "k" ∧
    (((FileStorageClient.mk "root").deleteObjectDirectory "A"
        ⟨["root", "root/A", "root/B"], [("root/B/k2", [9])]⟩).1).readFile
        ((FileStorageClient.mk "root").objectPath "B" "k2") =
      FS.readFile ⟨["root", "root/A", "root/B"], [("root/B/k2", [9])]⟩
        ((FileStorageClient.mk "root").objectPath "B" "k2") :=
  partition_isolation "root" "A" "B" "k" "k2"
    ⟨["root", "root/A", "root/B"], [("root/B/k2", [9])]⟩
    (by decide) (by decide) (by decide)
